import Mathlib

/-
  Shallow embedding of the recommendation core of the learning-platform
  repository: the implicit-ratings builder and model evaluator
  (modules/evaluation.py), the collaborative-filtering wrappers
  (modules/recommender.py), the KNN peer recommender and the two copies of
  the content recommender (modules/recommendation_methods.py and app.py),
  and the YouTube id extractor (app.py).

  Machine reals from the source are modelled as exact rationals; Python
  dictionaries holding user profiles and content items are modelled as
  structures with optional fields; Python exceptions are modelled with
  Except/Option; external library calls (scikit-learn kneighbors, surprise
  cross_validate and model training) are modelled as oracle parameters,
  constrained only by their documented input-validation contracts.
-/

/-- Python scalar values occurring in the profile lists and identifier
fields that the recommendation code manipulates: strings and integers. -/
inductive SVal where
  | str (s : String)
  | int (n : Int)
deriving DecidableEq, Repr

/-- Python `str(v)` on the scalars we model (decimal rendering for ints). -/
def pyStr : SVal → String
  | .str s => s
  | .int n => toString n

/-- ASCII lowercasing of one character, the fragment of Python
`str.lower` exercised by the modelled data. -/
def pyLowerChar (c : Char) : Char :=
  if 'A' ≤ c ∧ c ≤ 'Z' then Char.ofNat (c.toNat + 32) else c

/-- Python `s.lower()` over the modelled (ASCII) strings, written so that
it evaluates inside the kernel. -/
def pyLower (s : String) : String := String.mk (s.data.map pyLowerChar)

/-- Python `str(v).lower()` on a modelled scalar. -/
def pyLowerStr (v : SVal) : String := pyLower (pyStr v)

/-- Python substring test `n in h` over character lists: true iff `n`
occurs contiguously inside `h` (the empty needle always matches). -/
def isSub (n : List Char) : List Char → Bool
  | [] => n.isEmpty
  | c :: t => n.isPrefixOf (c :: t) || isSub n (t)

/-- Continuation used by the backtracking matcher for the YouTube regex:
receives the remaining input, yields the captured video id on success. -/
abbrev MatchK := List Char → Option (List Char)

/-- Regex fragments of the YouTube pattern as continuation-passing
matchers; alternatives are tried left to right, as Python `re` does. -/
abbrev MatchFn := List Char → MatchK → Option (List Char)

/-- Literal fragment of the pattern. -/
def litM (w : String) : MatchFn := fun s k =>
  if w.data.isPrefixOf s then k (s.drop w.length) else none

/-- Sequencing of two fragments. -/
def seqM (a b : MatchFn) : MatchFn := fun s k => a s fun s1 => b s1 k

/-- Ordered alternation of two fragments (left branch preferred). -/
def altM (a b : MatchFn) : MatchFn := fun s k => a s k <|> b s k

/-- Greedy optional fragment `(...)?`: matching the fragment is preferred,
skipping it is the backtracking fallback. -/
def optM (a : MatchFn) : MatchFn := fun s k => a s k <|> k s

/-- Greedy continuation of `.+` after at least one character has been
consumed: consuming further characters is preferred over stopping;
`.` does not match a newline. -/
def dotPlusAux : List Char → MatchK → Option (List Char)
  | [], k => k []
  | c :: rest, k =>
      (if c = '\n' then none else dotPlusAux rest k) <|> k (c :: rest)

/-- Greedy `.+` fragment of the pattern. -/
def dotPlusM : MatchFn := fun s k =>
  match s with
  | [] => none
  | c :: rest => if c = '\n' then none else dotPlusAux rest k

/-- Final capturing group `([^&=%\?]{11})` of the YouTube pattern: exactly
eleven characters, none of which is `&`, `=`, `%` or `?`; the pattern ends
here, so trailing input is ignored and the captured group is returned. -/
def grp6 (s : List Char) : Option (List Char) :=
  let c11 := s.take 11
  if c11.length = 11 && c11.all (fun c => !(c = '&' || c = '=' || c = '%' || c = '?'))
  then some c11 else none

/-- Anchored match of the full pattern
`(https?://)?(www\.)?(youtube|youtu|youtube-nocookie)\.(com|be)/`
`(watch\?v=|embed/|v/|.+\?v=)?([^&=%\?]{11})`
returning capture group 6, following the leftmost/greedy backtracking
order of Python `re.match`. -/
def ytMatch (s : List Char) : Option (List Char) :=
  optM (seqM (litM "http") (seqM (optM (litM "s")) (litM "://"))) s fun s1 =>
  optM (litM "www.") s1 fun s2 =>
  altM (litM "youtube") (altM (litM "youtu") (litM "youtube-nocookie")) s2 fun s3 =>
  litM "." s3 fun s4 =>
  altM (litM "com") (litM "be") s4 fun s5 =>
  litM "/" s5 fun s6 =>
  optM (altM (litM "watch?v=")
      (altM (litM "embed/") (altM (litM "v/") (seqM dotPlusM (litM "?v="))))) s6 fun s7 =>
  grp6 s7

/-- Embedding of `extract_youtube_id` (app.py): `None` and the empty
string are falsy and yield no id; otherwise the anchored regex match is
attempted and group 6 returned on success. -/
def extract_youtube_id (url : Option String) : Option String :=
  match url with
  | none => none
  | some u => if u = "" then none else (ytMatch u.data).map fun cs => String.mk cs

/-- Content item as stored in the catalog: a Python dict with optional
fields; `selfId` models a possible `id` key stored on the item itself,
which the merge `{"id": cid, **c_data}` lets shadow the storage key. -/
structure ContentItem where
  selfId : Option SVal := none
  title : Option String := none
  category : Option String := none
  description : Option String := none
  link : Option String := none
  rating : Option ℚ := none
deriving DecidableEq, Repr

/-- Raw catalog entry: a dict (content item) or a value of another type,
which normalization skips via its `isinstance(..., dict)` filter. -/
inductive Entry where
  | dict (c : ContentItem)
  | nondict
deriving DecidableEq, Repr

/-- Raw catalog shape as fetched from the store: a list, a keyed mapping
(association list in Python dict insertion order), or some other type. -/
inductive RawContents where
  | list (l : List Entry)
  | dict (l : List (String × Entry))
  | other
deriving DecidableEq, Repr

/-- User profile dict: optional display fields plus the tag lists and the
interaction history the recommenders read (absent list fields are
represented by the empty list, matching `get(key, [])`). -/
structure Profile where
  name : Option String := none
  bio : Option String := none
  photo : Option String := none
  competences : List SVal := []
  interets : List SVal := []
  communautes : List SVal := []
  derniersCours : List SVal := []
deriving DecidableEq, Repr

/-- Output record built by `generate_recommendations`. -/
structure RecOut where
  id : String
  title : String
  category : String
  description : String
  link : String
  embedLink : Option String
  rating : ℚ
deriving DecidableEq, Repr

/-- Normalization of the raw catalog into a list of (identifier, item)
pairs: for a mapping, `{"id": cid, **c_data}` uses the storage key unless
the item carries its own `id` key (Python dict-merge lets the later key
win); for a list, the positional index plays the role of the key; non-dict
entries are dropped but still consume their positional index. -/
def normalizeContents : RawContents → List (SVal × ContentItem)
  | .dict l => l.filterMap fun p =>
      match p.2 with
      | .dict c => some (c.selfId.getD (.str p.1), c)
      | .nondict => none
  | .list l => l.enum.filterMap fun p =>
      match p.2 with
      | .dict c => some (c.selfId.getD (.int (p.1 : Int)), c)
      | .nondict => none
  | .other => []

/-- Lowercased string skills of a profile (`isinstance(skill, str)` keeps
only the string entries). -/
def strTagsLower (l : List SVal) : List String :=
  l.filterMap fun v =>
    match v with
    | .str s => some (pyLower s)
    | .int _ => none

/-- Interacted content ids of a profile, as strings
(`str(cid) for cid ... if isinstance(cid, (int, str))`; every modelled
scalar passes the isinstance filter). -/
def interactedIds (p : Profile) : List String := p.derniersCours.map pyStr

/-- Inclusion loop of `generate_recommendations`: for each normalized
item, skip it when its id string is in the interacted set, otherwise test
whether any keyword is a substring of the lowercased category, description
or title, and if so build the output record (with the defaults of the
source for missing fields). -/
def includedRecs (keywords interacted : List String) :
    List (SVal × ContentItem) → List RecOut :=
  List.filterMap fun ic =>
    let cid := pyStr ic.1
    let c := ic.2
    if cid ∈ interacted then none
    else
      let cat := pyLower (c.category.getD "")
      let desc := pyLower (c.description.getD "")
      let tit := pyLower (c.title.getD "")
      if keywords.any fun kw =>
          isSub kw.data cat.data || isSub kw.data desc.data || isSub kw.data tit.data then
        let yid := extract_youtube_id c.link
        some { id := cid
               title := c.title.getD "Unknown Title"
               category := c.category.getD "Unknown Category"
               description := c.description.getD "No description available"
               link := c.link.getD "#"
               embedLink := yid.map fun i => "https://www.youtube.com/embed/" ++ i
               rating := c.rating.getD 0 }
      else none

/-- Insertion step of the stable descending sort that models Python
`sorted(..., key=..., reverse=True)`: the element being inserted came
earlier in the input than everything in the already-sorted list, so on a
tie it is placed before the tied elements. -/
def insertDescBy (key : α → ℚ) (a : α) : List α → List α
  | [] => [a]
  | b :: l => if key b ≤ key a then a :: b :: l else b :: insertDescBy key a l

/-- Stable descending sort by a rational key (the behavior of Python
`sorted(..., key=..., reverse=True)`: descending by key, ties keep the
original relative order). -/
def sortDescBy (key : α → ℚ) : List α → List α
  | [] => []
  | a :: l => insertDescBy key a (sortDescBy key l)

/-- Keywords of the content matcher: lowercased string skills followed by
lowercased string interests. -/
def contentKeywords (p : Profile) : List String :=
  strTagsLower p.competences ++ strTagsLower p.interets

/-- List of records accumulated by the loop of `generate_recommendations`
before sorting, for a given profile and raw catalog (empty when either
input is falsy/absent or the catalog has an unexpected type). -/
def preSortRecs (profile : Option Profile) (raw : Option RawContents) : List RecOut :=
  match profile, raw with
  | none, _ => []
  | _, none => []
  | some p, some rc =>
    match rc with
    | .other => []
    | _ => includedRecs (contentKeywords p) (interactedIds p) (normalizeContents rc)

/-- Embedding of `generate_recommendations` (app.py, lines 720-779):
falsy profile or absent catalog yields an empty list; a catalog of an
unexpected type yields an empty list; otherwise the catalog is
normalized, items already interacted with are skipped, keyword matches
are collected, and the result is sorted descending by rating (stable)
and truncated to the first ten records. -/
def generate_recommendations (profile : Option Profile) (raw : Option RawContents) :
    List RecOut :=
  (sortDescBy RecOut.rating (preSortRecs profile raw)).take 10

/-- Embedding of the duplicate `generate_recommendations`
(modules/recommendation_methods.py, lines 340-397).  It differs from the
app.py copy in two ways visible in the source: the interests
comprehension guards on `isinstance(item, ...)` where `item` is an
undefined name, so a non-empty interests list raises NameError; and the
module neither defines nor imports `extract_youtube_id`, so the first
keyword-matching item raises NameError.  Both errors propagate (there is
no handler in the function). -/
def generate_recommendations_module (profile : Option Profile)
    (raw : Option RawContents) : Except String (List RecOut) :=
  match profile, raw with
  | none, _ => .ok []
  | _, none => .ok []
  | some p, some rc =>
    match rc with
    | .other => .ok []
    | _ =>
      let items := normalizeContents rc
      if p.interets.isEmpty then
        let keywords := strTagsLower p.competences
        let interacted := interactedIds p
        if items.any fun ic =>
            !(interacted.contains (pyStr ic.1)) &&
            (keywords.any fun kw =>
              isSub kw.data (pyLower (ic.2.category.getD "")).data ||
              isSub kw.data (pyLower (ic.2.description.getD "")).data ||
              isSub kw.data (pyLower (ic.2.title.getD "")).data) then
          .error "NameError: name extract_youtube_id is not defined"
        else .ok []
      else .error "NameError: name item is not defined"

/-- Numpy array of rationals with its dimensionality tracked, as needed to
model the argument the source passes to `kneighbors`. -/
inductive PyArr where
  | d1 (v : List ℚ)
  | d2 (m : List (List ℚ))
  | d3 (t : List (List (List ℚ)))

/-- Dimensionality of a modelled numpy array. -/
def PyArr.ndim : PyArr → Nat
  | .d1 _ => 1
  | .d2 _ => 2
  | .d3 _ => 3

/-- Oracle for `NearestNeighbors(n_neighbors=k, metric=cosine)` fitted on
the candidate matrix and queried via `kneighbors`: given k, the fitted
vectors and the query array, it either raises (input validation or any
other library failure) or returns the (distances, indices) pair of
2-D result arrays. -/
def KnnOracle : Type :=
  Nat → List (List ℚ) → PyArr → Except String (List (List ℚ) × List (List Nat))

/-- Documented input-validation contract of scikit-learn `kneighbors`:
the query must be a 2-D array; any array whose ndim differs from 2 is
rejected with `ValueError: Found array with dim ...`, so a successful
call implies a 2-D query. -/
def oracleValidates (ko : KnnOracle) : Prop :=
  ∀ k td q r, ko k td q = .ok r → q.ndim = 2

/-- Peer recommendation record built by `KNN_similarity`. -/
structure PeerRec where
  idEtudiant : String
  nom : String
  bio : String
  skills : List SVal
  interests : List SVal
  communities : List SVal
  photo : String
deriving DecidableEq, Repr

/-- User store: association list keyed by user id, in Python dict
insertion order. -/
def UserMap : Type := List (String × Profile)

/-- Dict lookup on the user store (`dict.get`). -/
def umGet (users : UserMap) (uid : String) : Option Profile :=
  (users.find? fun p => p.1 = uid).map Prod.snd

/-- Combined lowercased tag terms of one profile, in the order
`vectorize_user_profile` reads them (skills, interests, communities);
every modelled scalar passes the `isinstance(item, (str, int, float))`
filter of the source. -/
def userTerms (u : Profile) : List String :=
  (u.competences ++ u.interets ++ u.communautes).map pyLowerStr

/-- Python string comparison `a <= b`: code-point lexicographic order on
the character sequences. -/
def charListLe : List Char → List Char → Bool
  | [], _ => true
  | _ :: _, [] => false
  | a :: as, b :: bs => if a < b then true else if b < a then false else charListLe as bs

/-- Insertion step of the ascending lexicographic sort used for
`sorted(list(all_terms))`. -/
def insertStrAsc (a : String) : List String → List String
  | [] => [a]
  | b :: l => if charListLe a.data b.data then a :: b :: l else b :: insertStrAsc a l

/-- Ascending lexicographic sort of a list of strings
(`sorted(list(all_terms))`). -/
def sortStrAsc : List String → List String
  | [] => []
  | a :: l => insertStrAsc a (sortStrAsc l)

/-- Global vocabulary of `KNN_similarity`: the set of tag terms over all
users, deduplicated (Python set) and sorted for stable vector indexing. -/
def allPossibleTerms (users : UserMap) : List String :=
  sortStrAsc ((users.flatMap fun p => userTerms p.2).dedup)

/-- Embedding of `vectorize_user_profile`: binary vector over the given
vocabulary; since the vocabulary is deduplicated, setting position
`vocabulary.index(term)` to 1 for each profile term is the same as
marking the vocabulary entries that occur among the profile terms (terms
absent from the vocabulary are silently dropped). -/
def vectorize_user_profile (u : Profile) (vocab : List String) : List ℚ :=
  vocab.map fun t => if t ∈ userTerms u then (1 : ℚ) else 0

/-- Post-processing of a successful `kneighbors` call (source lines
176-198): empty index array yields an empty result, otherwise the first
row of indices is mapped back to candidate user ids and each id still
present in the user store contributes a peer record with the public
profile fields and their source defaults. -/
def knnPost (users : UserMap) (otherIds : List String)
    (indices : List (List Nat)) : List PeerRec :=
  if (indices.foldr (fun r acc => r.length + acc) 0) = 0 then []
  else
    match indices with
    | [] => []
    | first :: _ =>
      (first.map fun i => otherIds.getD i "").filterMap fun uid =>
        (umGet users uid).map fun d =>
          { idEtudiant := uid
            nom := d.name.getD ("User " ++ uid)
            bio := d.bio.getD "No bio available."
            skills := d.competences
            interests := d.interets
            communities := d.communautes
            photo := d.photo.getD "/static/default-avatar.png" }

/-- Query step of `KNN_similarity`: the source passes
`[current_user_vector.reshape(1, -1)]` to `kneighbors` - the reshape
makes the 1-D profile vector 2-D and the surrounding list literal wraps
it once more, so the library receives a 3-D array; a raised error is
caught by the surrounding handler, which returns the empty list. -/
def knnQuery (ko : KnnOracle) (kN : Nat) (otherVecs : List (List ℚ))
    (curVec : List ℚ) (users : UserMap) (otherIds : List String) : List PeerRec :=
  match ko kN otherVecs (.d3 [[curVec]]) with
  | .error _ => []
  | .ok dr => knnPost users otherIds dr.2

/-- Vectorized profiles of all users over the global vocabulary
(`user_vectors` in the source). -/
def userVectors (users : UserMap) : List (String × List ℚ) :=
  users.map fun p => (p.1, vectorize_user_profile p.2 (allPossibleTerms users))

/-- Candidate pool of `KNN_similarity`: all users except the target, in
store order. -/
def knnOthers (currentUserId : String) (users : UserMap) : UserMap :=
  users.filter fun p => p.1 ≠ currentUserId

/-- Candidate user ids, in candidate-pool order. -/
def knnOtherIds (currentUserId : String) (users : UserMap) : List String :=
  (knnOthers currentUserId users).map Prod.fst

/-- Candidate matrix handed to the nearest-neighbor fit
(`np.array([user_vectors[uid] for uid in other_user_ids])`); the dict
lookup always succeeds because the vectors were built over all users. -/
def knnOtherVecs (currentUserId : String) (users : UserMap) : List (List ℚ) :=
  (knnOtherIds currentUserId users).map fun uid =>
    (((userVectors users).find? fun p => p.1 = uid).map Prod.snd).getD []

/-- Effective neighbor count: capped at the candidate count when fewer
candidates than requested recommendations exist. -/
def kEffective (currentUserId : String) (users : UserMap)
    (numRecommendations : Nat) : Nat :=
  if (knnOtherVecs currentUserId users).length < numRecommendations then
    (knnOtherVecs currentUserId users).length
  else numRecommendations

/-- Embedding of `KNN_similarity`
(modules/recommendation_methods.py, lines 100-202): early empty results
when the store is empty, no other user exists, or the target has no
stored profile; vocabulary built over all users, empty vocabulary yields
an empty result; all profiles vectorized; the neighbor count is capped at
the candidate count and must be at least 1; then the `kneighbors` query
runs inside the try/except that maps any raised error to the empty
list. -/
def KNN_similarity (ko : KnnOracle) (currentUserId : String) (users : UserMap)
    (numRecommendations : Nat) : List PeerRec :=
  if users.isEmpty then []
  else if (knnOthers currentUserId users).isEmpty then []
  else
    match umGet users currentUserId with
    | none => []
    | some _ =>
      if (allPossibleTerms users).isEmpty then []
      else
        match ((userVectors users).find? fun p => p.1 = currentUserId).map Prod.snd with
        | none => []
        | some curVec =>
          if kEffective currentUserId users numRecommendations < 1 ∨
              (knnOtherVecs currentUserId users).length = 0 then []
          else
            knnQuery ko (kEffective currentUserId users numRecommendations)
              (knnOtherVecs currentUserId users) curVec users
              (knnOtherIds currentUserId users)

/-- Skills column value of one student row: either already a Python list
(left untouched by the parse) or a serialized string, whose
`ast.literal_eval` either yields a list or raises. -/
inductive SkillsField where
  | lit (l : List String)
  | ser (o : Option (List String))
deriving DecidableEq, Repr

/-- One row of the student CSV, restricted to the columns
`create_ratings_df` reads. -/
structure StudentRow where
  id : Int
  nombreInteractions : ℚ
  competences : SkillsField
deriving DecidableEq, Repr

/-- Per-cell parse of the skills column:
`ast.literal_eval(x) if isinstance(x, str) else x`. -/
def parseSkills : SkillsField → Option (List String)
  | .lit l => some l
  | .ser o => o

/-- Column-wide parse, as `df[...].apply(...)` inside the try/except of
`create_ratings_df`: the first raising cell aborts the whole apply. -/
def parseColumn : List StudentRow → Option (List (StudentRow × List String))
  | [] => some []
  | r :: rest =>
    match parseSkills r.competences, parseColumn rest with
    | some l, some t => some ((r, l) :: t)
    | _, _ => none

/-- Python builtin `min(a, b)`: `a` when `a <= b`, else `b`. -/
def pyMin (a b : ℚ) : ℚ := if a ≤ b then a else b

/-- Implicit rating score of one row:
`min(interactions / 100 * 5, 5) * (1 + len(skills) / 10)`. -/
def ratingScore (interactions : ℚ) (skillCount : Nat) : ℚ :=
  pyMin (interactions / 100 * 5) 5 * (1 + (skillCount : ℚ) / 10)

/-- Embedding of `create_ratings_df` (modules/evaluation.py, lines 8-31):
parsing the skills column happens first under a try/except whose handler
returns the bare `pd.DataFrame()` sentinel (modelled as `none`); on
success the loop appends one `(str(student_id), skill, score)` tuple per
skill of each row. -/
def create_ratings_df (rows : List StudentRow) :
    Option (List (String × String × ℚ)) :=
  match parseColumn rows with
  | none => none
  | some parsed =>
    some (parsed.foldl
      (fun acc rl =>
        acc ++ rl.2.map fun c =>
          (toString rl.1.id, c, ratingScore rl.1.nombreInteractions rl.2.length))
      [])

/-- Candidate model kinds evaluated by `evaluate_surprise_models`. -/
inductive ModelKind where
  | knn
  | svd
deriving DecidableEq, Repr

/-- Per-fold scores returned by a `cross_validate` call. -/
structure FoldScores where
  rmse : List ℚ
  mae : List ℚ
deriving DecidableEq, Repr

/-- Oracle for `surprise.model_selection.cross_validate`: given the model
kind, the ratings tuples and the fold count, it either raises or returns
the per-fold RMSE and MAE arrays. -/
def CVOracle : Type :=
  ModelKind → List (String × String × ℚ) → Nat → Except String FoldScores

/-- RMSE/MAE summary for one model. -/
structure Metrics where
  rmse : ℚ
  mae : ℚ
deriving DecidableEq, Repr

/-- Result of `evaluate_surprise_models`: either the structured error
dict `{"error": msg}` or the per-model metrics dict. -/
inductive EvalResult where
  | err (msg : String)
  | ok (knn svd : Metrics)
deriving DecidableEq, Repr

/-- Arithmetic mean of a list of rationals (`sum(l) / len(l)`). -/
def listMean (l : List ℚ) : ℚ := l.sum / (l.length : ℚ)

/-- Round-half-to-even to an integer, the idealized behavior of Python
`round` (modelled exactly over the rationals). -/
def roundHalfEven (q : ℚ) : ℤ :=
  let f := ⌊q⌋
  let r := q - (f : ℚ)
  if r < 1 / 2 then f
  else if 1 / 2 < r then f + 1
  else if f % 2 = 0 then f else f + 1

/-- Python `round(x, 2)` over the rationals. -/
def round2 (q : ℚ) : ℚ := (roundHalfEven (q * 100) : ℚ) / 100

/-- Embedding of `evaluate_surprise_models`
(modules/evaluation.py, lines 36-62): an empty ratings frame (a failed
parse returns the bare sentinel and a successful build with no tuple is
also empty) yields `{"error": "No valid ratings data available"}`;
otherwise `cross_validate` runs with `cv=5` for KNNBasic and SVD; any
exception raised inside the try (including the ZeroDivisionError of the
mean over an empty fold array) is returned as `{"error": str(e)}`;
otherwise the rounded means of the fold scores are reported per model. -/
def evaluate_surprise_models (cv : CVOracle) (rows : List StudentRow) : EvalResult :=
  match create_ratings_df rows with
  | none => .err "No valid ratings data available"
  | some ratings =>
    if ratings.isEmpty then .err "No valid ratings data available"
    else
      match cv .knn ratings 5 with
      | .error e => .err e
      | .ok ks =>
        match cv .svd ratings 5 with
        | .error e => .err e
        | .ok ss =>
          if ks.rmse.isEmpty || ks.mae.isEmpty || ss.rmse.isEmpty || ss.mae.isEmpty then
            .err "division by zero"
          else
            .ok { rmse := round2 (listMean ks.rmse), mae := round2 (listMean ks.mae) }
               { rmse := round2 (listMean ss.rmse), mae := round2 (listMean ss.mae) }

/-- One prediction object produced by `model.test(...)` in the
collaborative-filtering wrappers. -/
structure Prediction where
  uid : String
  iid : String
  est : ℚ
deriving DecidableEq, Repr

/-- One row of the preprocessed student dataframe as read by the
collaborative-filtering wrappers. -/
structure DfStudent where
  id : Int
  nom : String
  competences : List String
  nombreInteractions : ℚ
deriving DecidableEq, Repr

/-- Recommendation record built by `get_knn_recommendations`. -/
structure KnnRec where
  nom : String
  competence : String
  score : ℚ
deriving DecidableEq, Repr

/-- Recommendation record built by `get_svd_recommendations`. -/
structure SvdRec where
  nom : String
  score : ℚ
deriving DecidableEq, Repr

/-- The source sorts the list of item-id strings with
`key=lambda x: x.est`; Python evaluates the key on every element before
sorting, and a string has no attribute `est`, so any non-empty list
raises AttributeError. -/
def sortStringsByEst (l : List String) : Except String (List String) :=
  match l with
  | [] => .ok []
  | _ :: _ => .error "AttributeError: str object has no attribute est"

/-- Body of `get_knn_recommendations` (modules/recommender.py, lines
136-157), with the surprise training/prediction pipeline and the
dataframe reload modelled as fallible oracles: collect the predicted item
ids for the user, sort them (raising on any non-empty list, see
`sortStringsByEst`), reload the dataframe, and for each retained skill
emit one record per student holding it, scored by interactions / 100,
sorted descending and truncated. -/
def knnBody (trainOut : Except String (List Prediction))
    (loadOut : Except String (List DfStudent)) (userId : Int) (topN : Nat) :
    Except String (List KnnRec) := do
  let preds ← trainOut
  let userSkills := (preds.filter fun p => p.uid = toString userId).map Prediction.iid
  let sortedSkills ← sortStringsByEst userSkills
  let kept := sortedSkills.take topN
  let df ← loadOut
  let recs := kept.flatMap fun skill =>
    (df.filter fun s => skill ∈ s.competences).map fun s =>
      { nom := s.nom, competence := skill,
        score := s.nombreInteractions / 100 : KnnRec }
  return (sortDescBy KnnRec.score recs).take topN

/-- Embedding of `get_knn_recommendations`: the whole body runs inside
`try/except Exception`, whose handler logs and returns the empty list. -/
def get_knn_recommendations (trainOut : Except String (List Prediction))
    (loadOut : Except String (List DfStudent)) (userId : Int) (topN : Nat) :
    List KnnRec :=
  match knnBody trainOut loadOut userId topN with
  | .ok r => r
  | .error _ => []

/-- Decimal digit value of a character, if it is a digit. -/
def charDigit (c : Char) : Option Nat :=
  if '0' ≤ c ∧ c ≤ '9' then some (c.toNat - '0'.toNat) else none

/-- Value of a non-empty all-digit character list, none otherwise. -/
def digitsValAux (acc : Nat) : List Char → Option Nat
  | [] => some acc
  | c :: t =>
    match charDigit c with
    | some d => digitsValAux (acc * 10 + d) t
    | none => none

/-- Integer denoted by a character sequence: an optional sign followed by
at least one digit. -/
def pyIntCore : List Char → Option Int
  | [] => none
  | '-' :: rest =>
    match rest with
    | [] => none
    | _ => (digitsValAux 0 rest).map fun n => -(n : Int)
  | '+' :: rest =>
    match rest with
    | [] => none
    | _ => (digitsValAux 0 rest).map fun n => (n : Int)
  | cs => (digitsValAux 0 cs).map fun n => (n : Int)

/-- Python `int(s)` on a string: parses an optional sign followed by
digits, raising ValueError otherwise (whitespace tolerance and other
numeric literal forms do not occur for the skill strings at play). -/
def pyInt (s : String) : Except String Int :=
  match pyIntCore s.data with
  | some n => .ok n
  | none => .error ("ValueError: invalid literal for int() with base 10: " ++ s)

/-- Body of `get_svd_recommendations` (modules/recommender.py, lines
164-176): filter the predictions to the user, sort by estimated score
descending (valid here: the elements are prediction objects), truncate,
then for each retained prediction parse its item id as an int and look
the student up in the module-level dataframe; an empty selection makes
`.values[0]` raise IndexError. -/
def svdBody (trainOut : Except String (List Prediction)) (df : List DfStudent)
    (userId : Int) (topN : Nat) : Except String (List SvdRec) := do
  let preds ← trainOut
  let userPreds := sortDescBy Prediction.est (preds.filter fun p => p.uid = toString userId)
  (userPreds.take topN).mapM fun p => do
    let n ← pyInt p.iid
    match df.find? fun s => s.id = n with
    | none => Except.error "IndexError: index 0 is out of bounds for axis 0 with size 0"
    | some s => Except.ok { nom := s.nom, score := p.est : SvdRec }

/-- Embedding of `get_svd_recommendations`: the whole body runs inside
`try/except Exception`, whose handler logs and returns the empty list. -/
def get_svd_recommendations (trainOut : Except String (List Prediction))
    (df : List DfStudent) (userId : Int) (topN : Nat) : List SvdRec :=
  match svdBody trainOut df userId topN with
  | .ok r => r
  | .error _ => []

/-- Profile of user u1 in the concrete two-user store used to exhibit the
behavior of the peer recommender. -/
def profU1 : Profile := { competences := [.str "a"] }

/-- Profile of user u2 in the concrete two-user store. -/
def profU2 : Profile := { competences := [.str "a"] }

/-- Concrete user store with a stored target profile, one candidate and a
non-empty vocabulary. -/
def usersC3 : UserMap := [("u1", profU1), ("u2", profU2)]

/-- Concrete well-behaved `kneighbors` oracle: accepts 2-D queries (and
returns the neighbor at index 0 at distance 0), rejects any other
dimensionality exactly as the scikit-learn input validation does. -/
def okOracle : KnnOracle := fun _ _ q =>
  match q with
  | .d2 _ => .ok ([[0]], [[0]])
  | _ => .error "ValueError: Found array with dim 3. Estimator expected 2."

/-- User store whose target user u1 has a fully empty profile, used to
witness the cold-start claim. -/
def usersC6 : UserMap := [("u1", {}), ("u2", { competences := [.str "b"] })]

/-- Profile used in the counterexample to the interacted-item exclusion
claim: one skill and one interacted storage key. -/
def pC5 : Profile := { competences := [.str "rust"], derniersCours := [.str "k1"] }

/-- Catalog item stored under key k1 that carries its own id field. -/
def itC5 : ContentItem :=
  { selfId := some (.str "zzz"), title := some "Intro to Rust",
    category := some "Systems", rating := some 4 }

/-- Catalog mapping holding `itC5` under storage key k1. -/
def catC5 : RawContents := .dict [("k1", .dict itC5)]

/-- Record that `generate_recommendations` emits for `itC5` despite the
storage key k1 being interacted: the id it carries is the shadowing id
field of the item. -/
def recC5 : RecOut :=
  { id := "zzz", title := "Intro to Rust", category := "Systems",
    description := "No description available", link := "#",
    embedLink := none, rating := (4 : ℚ) }

/-- Profile with one matching skill and no interests, used on the
failing input of the duplicated content recommender. -/
def pC10 : Profile := { competences := [.str "rust"] }

/-- Single-item list catalog whose item matches the skill of `pC10`. -/
def catC10 : RawContents :=
  .list [.dict { title := some "Intro to Rust", category := some "Systems",
                 rating := some 4 }]

/-- Record that the app.py copy emits on the failing input of the
duplicated content recommender. -/
def recC10 : RecOut :=
  { id := "0", title := "Intro to Rust", category := "Systems",
    description := "No description available", link := "#",
    embedLink := none, rating := (4 : ℚ) }

/-- Student row used by the witnesses of the ratings-builder claims. -/
def rowW : StudentRow := ⟨3, 40, .ser (some ["s1"])⟩

/-- Student row whose serialized skills column raises on parse. -/
def rowBad : StudentRow := ⟨2, 30, .ser none⟩

/-- Student row with a well-formed literal skills column. -/
def rowGood : StudentRow := ⟨1, 50, .lit ["a"]⟩

/-- Cross-validation oracle returning fixed fold scores, used by the
evaluator witness. -/
def cvW : CVOracle := fun _ _ _ => .ok { rmse := [2], mae := [1] }

theorem perm_insertDescBy (key : α → ℚ) (a : α) (l : List α) :
    List.Perm (insertDescBy key a l) (a :: l) := by
  induction l with
  | nil => exact List.Perm.refl _
  | cons b t ih =>
    rw [insertDescBy]
    split
    · exact List.Perm.refl _
    · exact (ih.cons b).trans (List.Perm.swap a b t)

theorem perm_sortDescBy (key : α → ℚ) (l : List α) : List.Perm (sortDescBy key l) l := by
  induction l with
  | nil => exact List.Perm.refl _
  | cons a t ih => exact (perm_insertDescBy key a (sortDescBy key t)).trans (ih.cons a)

theorem pairwise_insertDescBy (key : α → ℚ) (a : α) (l : List α)
    (h : l.Pairwise fun x y => key y ≤ key x) :
    (insertDescBy key a l).Pairwise fun x y => key y ≤ key x := by
  induction l with
  | nil => simp [insertDescBy]
  | cons b t ih =>
    rw [insertDescBy]
    split
    · rename_i hba
      refine List.Pairwise.cons (fun y hy => ?_) h
      rcases List.mem_cons.mp hy with rfl | hyt
      · exact hba
      · exact le_trans ((List.pairwise_cons.mp h).1 y hyt) hba
    · rename_i hba
      have hab : key a ≤ key b := le_of_lt (lt_of_not_le hba)
      rw [List.pairwise_cons] at h
      refine List.Pairwise.cons (fun y hy => ?_) (ih h.2)
      have hmem := (perm_insertDescBy key a t).mem_iff.mp hy
      rcases List.mem_cons.mp hmem with rfl | hyt
      · exact hab
      · exact h.1 y hyt

theorem pairwise_sortDescBy (key : α → ℚ) (l : List α) :
    (sortDescBy key l).Pairwise fun x y => key y ≤ key x := by
  induction l with
  | nil => simp [sortDescBy]
  | cons a t ih => exact pairwise_insertDescBy key a (sortDescBy key t) ih

theorem filter_insertDescBy (key : α → ℚ) (v : ℚ) (a : α) (l : List α) :
    (insertDescBy key a l).filter (fun x => decide (key x = v))
      = if key a = v then a :: l.filter (fun x => decide (key x = v))
        else l.filter (fun x => decide (key x = v)) := by
  induction l with
  | nil =>
    rw [insertDescBy]
    by_cases hav : key a = v <;> simp [hav]
  | cons b t ih =>
    rw [insertDescBy]
    split
    · rename_i hba
      by_cases hav : key a = v <;> simp [List.filter_cons, hav]
    · rename_i hba
      have hab : key a < key b := lt_of_not_le hba
      rw [List.filter_cons, ih, List.filter_cons]
      by_cases hav : key a = v
      · have hbv : ¬ key b = v := by rw [← hav]; exact ne_of_gt hab
        simp [hav, hbv]
      · simp [hav]

theorem filter_sortDescBy (key : α → ℚ) (v : ℚ) (l : List α) :
    (sortDescBy key l).filter (fun x => decide (key x = v))
      = l.filter (fun x => decide (key x = v)) := by
  induction l with
  | nil => rfl
  | cons a t ih =>
    rw [sortDescBy, filter_insertDescBy, List.filter_cons]
    by_cases hav : key a = v <;> simp [hav, ih]

theorem mem_includedRecs_not_interacted (kw inter : List String)
    (items : List (SVal × ContentItem)) (r : RecOut)
    (h : r ∈ includedRecs kw inter items) : ¬ r.id ∈ inter := by
  unfold includedRecs at h
  obtain ⟨ic, _, hr⟩ := List.mem_filterMap.mp h
  dsimp only at hr
  split at hr
  · exact absurd hr (by simp)
  · rename_i hnotin
    split at hr
    · cases Option.some.inj hr
      exact hnotin
    · exact absurd hr (by simp)

theorem includedRecs_nil_keywords (inter : List String)
    (items : List (SVal × ContentItem)) : includedRecs [] inter items = [] := by
  induction items with
  | nil => rfl
  | cons ic t ih =>
    unfold includedRecs at ih ⊢
    rw [List.filterMap_cons]
    have hnone :
        (if pyStr ic.1 ∈ inter then none
         else if ([] : List String).any fun kw =>
             isSub kw.data (pyLower (ic.2.category.getD "")).data ||
             isSub kw.data (pyLower (ic.2.description.getD "")).data ||
             isSub kw.data (pyLower (ic.2.title.getD "")).data then
           some { id := pyStr ic.1
                  title := ic.2.title.getD "Unknown Title"
                  category := ic.2.category.getD "Unknown Category"
                  description := ic.2.description.getD "No description available"
                  link := ic.2.link.getD "#"
                  embedLink := (extract_youtube_id ic.2.link).map
                    fun i => "https://www.youtube.com/embed/" ++ i
                  rating := ic.2.rating.getD 0 }
         else none) = (none : Option RecOut) := by
      split
      · rfl
      · simp
    rw [hnone, ih]

theorem knnQuery_eq_nil (ko : KnnOracle) (h : oracleValidates ko) (kN : Nat)
    (otherVecs : List (List ℚ)) (curVec : List ℚ) (users : UserMap)
    (otherIds : List String) :
    knnQuery ko kN otherVecs curVec users otherIds = [] := by
  unfold knnQuery
  cases hq : ko kN otherVecs (.d3 [[curVec]]) with
  | error e => rfl
  | ok r => exact absurd (h _ _ _ _ hq) (by simp [PyArr.ndim])

theorem KNN_similarity_eq_nil (ko : KnnOracle) (h : oracleValidates ko)
    (currentUserId : String) (users : UserMap) (numRecommendations : Nat) :
    KNN_similarity ko currentUserId users numRecommendations = [] := by
  unfold KNN_similarity
  repeat' split
  all_goals first
  | rfl
  | exact knnQuery_eq_nil ko h _ _ _ _ _

theorem okOracle_validates : oracleValidates okOracle := by
  intro k td q r hq
  cases q with
  | d1 v => exact absurd hq (by simp [okOracle])
  | d2 m => rfl
  | d3 t => exact absurd hq (by simp [okOracle])

theorem parseColumn_eq_some (rows : List StudentRow)
    (h : ∀ r ∈ rows, (parseSkills r.competences).isSome) :
    parseColumn rows =
      some (rows.map fun r => (r, (parseSkills r.competences).getD [])) := by
  induction rows with
  | nil => rfl
  | cons r rest ih =>
    obtain ⟨l, hl⟩ := Option.isSome_iff_exists.mp (h r (List.mem_cons_self r rest))
    rw [parseColumn, hl, ih fun x hx => h x (List.mem_cons_of_mem r hx)]
    simp [hl]

theorem parseColumn_eq_none (rows : List StudentRow) (r : StudentRow)
    (hmem : r ∈ rows) (hr : parseSkills r.competences = none) :
    parseColumn rows = none := by
  induction rows with
  | nil => cases hmem
  | cons a rest ih =>
    rw [parseColumn]
    rcases List.mem_cons.mp hmem with rfl | hmemr
    · rw [hr]
    · cases hpa : parseSkills a.competences with
      | none => rfl
      | some l => rw [ih hmemr]

theorem foldl_append_flatMap (f : α → List β) (l : List α) (init : List β) :
    l.foldl (fun acc x => acc ++ f x) init = init ++ l.flatMap f := by
  induction l generalizing init with
  | nil => simp
  | cons a t ih => simp [List.foldl_cons, ih, List.append_assoc]

/-- C1: for every student record with a parseable skills list, the
ratings builder emits exactly one (student, skill, score) tuple per skill
of the record, each carrying the same score
`min(interactions/100*5, 5) * (1 + skillCount/10)`; in particular a
record with interactions=50 and two skills yields score 3.0 in both its
tuples, and a record with interactions=100 and skills [x] yields the
tuple (student, x, 5.5). -/
theorem c1_ratings_one_tuple_per_skill :
    (∀ rows : List StudentRow,
        (∀ r ∈ rows, (parseSkills r.competences).isSome) →
        create_ratings_df rows =
          some (rows.flatMap fun r =>
            ((parseSkills r.competences).getD []).map fun c =>
              (toString r.id, c,
                ratingScore r.nombreInteractions
                  ((parseSkills r.competences).getD []).length)))
    ∧ create_ratings_df [⟨1, 50, .lit ["a", "b"]⟩] =
        some [("1", "a", 3), ("1", "b", 3)]
    ∧ create_ratings_df [⟨2, 100, .lit ["x"]⟩] = some [("2", "x", 11 / 2)] := by
  refine ⟨?_, ?_, ?_⟩
  · intro rows h
    simp only [create_ratings_df, parseColumn_eq_some rows h, foldl_append_flatMap,
      List.nil_append, List.flatMap_map]
  · have hs : ratingScore 50 2 = 3 := by norm_num [ratingScore, pyMin]
    have h1 : create_ratings_df [⟨1, 50, .lit ["a", "b"]⟩] =
        some [("1", "a", ratingScore 50 2), ("1", "b", ratingScore 50 2)] := rfl
    rw [h1, hs]
  · have hs : ratingScore 100 1 = 11 / 2 := by norm_num [ratingScore, pyMin]
    have h1 : create_ratings_df [⟨2, 100, .lit ["x"]⟩] =
        some [("2", "x", ratingScore 100 1)] := rfl
    rw [h1, hs]

/-- Witness for C1 at a concrete record with a serialized skills list. -/
theorem c1_ratings_one_tuple_per_skill_witness :
    (∀ r ∈ [rowW], (parseSkills r.competences).isSome)
    ∧ create_ratings_df [rowW] = some [("3", "s1", ratingScore 40 1)] := by
  have h : ∀ r ∈ [rowW], (parseSkills r.competences).isSome := by
    intro r hr
    rcases List.mem_singleton.mp hr with rfl
    rfl
  exact ⟨h, c1_ratings_one_tuple_per_skill.1 [rowW] h⟩

/-- C2: a student record whose skills field fails to parse makes the
whole ratings build fail with the bare error sentinel (no per-row skip,
no partial result), independently of the other rows. -/
theorem c2_parse_failure_fails_build :
    ∀ (rows : List StudentRow) (r : StudentRow), r ∈ rows →
      parseSkills r.competences = none → create_ratings_df rows = none := by
  intro rows r hmem hr
  simp [create_ratings_df, parseColumn_eq_none rows r hmem hr]

/-- Witness for C2: a well-formed row next to a malformed row still makes
the whole build fail. -/
theorem c2_parse_failure_fails_build_witness :
    rowBad ∈ [rowGood, rowBad]
    ∧ parseSkills rowBad.competences = none
    ∧ create_ratings_df [rowGood, rowBad] = none := by
  have hmem : rowBad ∈ [rowGood, rowBad] :=
    List.mem_cons_of_mem rowGood (List.mem_cons_self rowBad [])
  exact ⟨hmem, rfl, c2_parse_failure_fails_build [rowGood, rowBad] rowBad hmem rfl⟩

/-- C3 (code bug): on a store where the target user u1 has a stored
profile, exactly one other user exists and the vocabulary is non-empty,
`KNN_similarity` still returns the empty list for every `kneighbors`
oracle satisfying the scikit-learn 2-D input validation, because the
source wraps the already reshaped query vector in one more list and the
resulting 3-D array is rejected, the exception being swallowed by the
catch-all handler; the claim instead requires min(5, 1) = 1 record. -/
theorem c3_knn_always_empty_on_valid_input :
    (∀ ko : KnnOracle, oracleValidates ko →
        KNN_similarity ko "u1" usersC3 5 = [])
    ∧ (umGet usersC3 "u1").isSome = true
    ∧ (knnOthers "u1" usersC3).length = 1
    ∧ allPossibleTerms usersC3 = ["a"] := by
  refine ⟨?_, rfl, rfl, ?_⟩
  · intro ko h
    exact KNN_similarity_eq_nil ko h "u1" usersC3 5
  · decide

/-- Witness for C3 with a concrete validating oracle. -/
theorem c3_knn_always_empty_on_valid_input_witness :
    oracleValidates okOracle ∧ KNN_similarity okOracle "u1" usersC3 5 = [] :=
  ⟨okOracle_validates,
    c3_knn_always_empty_on_valid_input.1 okOracle okOracle_validates⟩

/-- C4: for every profile and catalog the content recommender output has
length at most ten, is sorted descending by rating, equals the stable
descending sort of the loop output truncated to ten, and the sort
preserves the original relative order within every rating class. -/
theorem c4_content_sorted_and_truncated :
    ∀ (profile : Option Profile) (raw : Option RawContents),
      (generate_recommendations profile raw).length ≤ 10
      ∧ (generate_recommendations profile raw).Pairwise
          (fun a b => b.rating ≤ a.rating)
      ∧ generate_recommendations profile raw =
          (sortDescBy RecOut.rating (preSortRecs profile raw)).take 10
      ∧ ∀ v : ℚ,
          (sortDescBy RecOut.rating (preSortRecs profile raw)).filter
              (fun r => decide (r.rating = v))
            = (preSortRecs profile raw).filter fun r => decide (r.rating = v) := by
  intro profile raw
  refine ⟨?_, ?_, rfl, ?_⟩
  · rw [generate_recommendations, List.length_take]
    exact min_le_left _ _
  · exact List.Pairwise.sublist (List.take_sublist 10 _)
      (pairwise_sortDescBy RecOut.rating _)
  · intro v
    exact filter_sortDescBy RecOut.rating v _

/-- Counterexample to C5 as stated: the catalog item stored under key k1,
which is in the interacted set of the profile, still appears in the
output, because the item carries its own id field and the dict merge
`{"id": cid, **c_data}` lets it shadow the storage key. -/
theorem c5_counterexample_interacted_key_shadowed :
    "k1" ∈ interactedIds pC5
    ∧ generate_recommendations (some pC5) (some catC5) = [recC5] :=
  ⟨by decide, rfl⟩

/-- C5 (amended): no record whose effective identifier - the item id
field when the item carries one, the storage key or positional index
otherwise - lies in the interacted set ever appears in the output of the
content recommender. -/
theorem c5_no_interacted_effective_id_in_output :
    ∀ (p : Profile) (raw : Option RawContents),
      (generate_recommendations (some p) raw).all
        (fun r => !decide (r.id ∈ interactedIds p)) = true := by
  intro p raw
  rw [List.all_eq_true]
  intro r hr
  have hr2 : r ∈ sortDescBy RecOut.rating (preSortRecs (some p) raw) :=
    (List.take_sublist 10 _).subset hr
  have hr3 : r ∈ preSortRecs (some p) raw :=
    (perm_sortDescBy RecOut.rating _).mem_iff.mp hr2
  have hnot : ¬ r.id ∈ interactedIds p := by
    cases raw with
    | none => exact absurd hr3 (List.not_mem_nil r)
    | some rc =>
      cases rc with
      | other => exact absurd hr3 (List.not_mem_nil r)
      | list l => exact mem_includedRecs_not_interacted _ _ _ r hr3
      | dict l => exact mem_includedRecs_not_interacted _ _ _ r hr3
  simpa using hnot

/-- C6: a profile with empty skills, interests and communities receives
an empty content recommendation list for every catalog, and a target user
with such a stored profile receives an empty peer recommendation list for
every population of other users (for every `kneighbors` oracle satisfying
the scikit-learn input validation). -/
theorem c6_cold_start_empty_results :
    ∀ p : Profile, p.competences = [] → p.interets = [] → p.communautes = [] →
      (∀ raw : Option RawContents, generate_recommendations (some p) raw = [])
      ∧ (∀ ko : KnnOracle, oracleValidates ko →
          ∀ (currentUserId : String) (users : UserMap) (k : Nat),
            umGet users currentUserId = some p →
            KNN_similarity ko currentUserId users k = []) := by
  intro p h1 h2 h3
  constructor
  · intro raw
    have hkw : contentKeywords p = [] := by
      simp [contentKeywords, strTagsLower, h1, h2]
    cases raw with
    | none => rfl
    | some rc =>
      cases rc with
      | other => rfl
      | list l =>
        show (sortDescBy RecOut.rating (includedRecs (contentKeywords p)
          (interactedIds p) (normalizeContents (.list l)))).take 10 = []
        rw [hkw, includedRecs_nil_keywords]
        rfl
      | dict l =>
        show (sortDescBy RecOut.rating (includedRecs (contentKeywords p)
          (interactedIds p) (normalizeContents (.dict l)))).take 10 = []
        rw [hkw, includedRecs_nil_keywords]
        rfl
  · intro ko hko cur users k _
    exact KNN_similarity_eq_nil ko hko cur users k

/-- Witness for C6 at the all-default profile, a concrete catalog, a
concrete store and the concrete validating oracle. -/
theorem c6_cold_start_empty_results_witness :
    generate_recommendations (some {}) (some catC10) = []
    ∧ KNN_similarity okOracle "u1" usersC6 5 = [] := by
  have h := c6_cold_start_empty_results {} rfl rfl rfl
  exact ⟨h.1 (some catC10), h.2 okOracle okOracle_validates "u1" usersC6 5 rfl⟩

/-- C7: the model evaluator returns the structured error object (not an
exception: its result type is a value in the embedding, with every raised
exception mapped to the error object) when the ratings set is empty, and
on non-empty ratings whose cross-validation calls succeed it returns, for
each of KNN and SVD, the rounded mean RMSE and MAE of the fold scores
produced by `cross_validate` at fold count 5. -/
theorem c7_evaluator_error_object_and_cv5 :
    (∀ (cv : CVOracle) (rows : List StudentRow),
        create_ratings_df rows = some [] →
        evaluate_surprise_models cv rows = .err "No valid ratings data available")
    ∧ (∀ (cv : CVOracle) (rows : List StudentRow)
        (ratings : List (String × String × ℚ)) (ks ss : FoldScores),
        create_ratings_df rows = some ratings → ratings ≠ [] →
        cv .knn ratings 5 = .ok ks → cv .svd ratings 5 = .ok ss →
        ks.rmse ≠ [] → ks.mae ≠ [] → ss.rmse ≠ [] → ss.mae ≠ [] →
        evaluate_surprise_models cv rows =
          .ok { rmse := round2 (listMean ks.rmse), mae := round2 (listMean ks.mae) }
             { rmse := round2 (listMean ss.rmse), mae := round2 (listMean ss.mae) }) := by
  constructor
  · intro cv rows hempty
    simp [evaluate_surprise_models, hempty]
  · intro cv rows ratings ks ss hsome hne hknn hsvd h1 h2 h3 h4
    simp [evaluate_surprise_models, hsome, hknn, hsvd, hne, h1, h2, h3, h4]

/-- Witness for C7: the empty build yields the error object, and a
one-row build with a fixed-score oracle yields the per-model metrics. -/
theorem c7_evaluator_error_object_and_cv5_witness :
    evaluate_surprise_models cvW [] = .err "No valid ratings data available"
    ∧ evaluate_surprise_models cvW [rowGood] =
        .ok { rmse := round2 (listMean [2]), mae := round2 (listMean [1]) }
           { rmse := round2 (listMean [2]), mae := round2 (listMean [1]) } := by
  refine ⟨c7_evaluator_error_object_and_cv5.1 cvW [] rfl, ?_⟩
  exact c7_evaluator_error_object_and_cv5.2 cvW [rowGood]
    [("1", "a", ratingScore 50 1)] { rmse := [2], mae := [1] }
    { rmse := [2], mae := [1] } rfl (List.cons_ne_nil _ _) rfl rfl
    (List.cons_ne_nil _ _) (List.cons_ne_nil _ _) (List.cons_ne_nil _ _)
    (List.cons_ne_nil _ _)

/-- C8: every exception raised inside the bodies of the two
collaborative-filtering wrappers is caught and surfaces as the empty
recommendation list, and a successful body is returned unchanged - the
wrappers are total, so no exception propagates. -/
theorem c8_cf_exceptions_degrade_to_empty :
    (∀ (t : Except String (List Prediction))
        (l : Except String (List DfStudent)) (uid : Int) (n : Nat) (e : String),
        knnBody t l uid n = .error e → get_knn_recommendations t l uid n = [])
    ∧ (∀ (t : Except String (List Prediction))
        (l : Except String (List DfStudent)) (uid : Int) (n : Nat)
        (r : List KnnRec),
        knnBody t l uid n = .ok r → get_knn_recommendations t l uid n = r)
    ∧ (∀ (t : Except String (List Prediction)) (df : List DfStudent)
        (uid : Int) (n : Nat) (e : String),
        svdBody t df uid n = .error e → get_svd_recommendations t df uid n = [])
    ∧ (∀ (t : Except String (List Prediction)) (df : List DfStudent)
        (uid : Int) (n : Nat) (r : List SvdRec),
        svdBody t df uid n = .ok r → get_svd_recommendations t df uid n = r) := by
  refine ⟨?_, ?_, ?_, ?_⟩
  · intro t l uid n e h
    simp [get_knn_recommendations, h]
  · intro t l uid n r h
    simp [get_knn_recommendations, h]
  · intro t df uid n e h
    simp [get_svd_recommendations, h]
  · intro t df uid n r h
    simp [get_svd_recommendations, h]

/-- Witness for C8: the KNN wrapper hits the AttributeError raised by
sorting item-id strings with an `est` key, the SVD wrapper hits the
ValueError raised by `int()` on a non-numeric skill string; both degrade
to the empty list. -/
theorem c8_cf_exceptions_degrade_to_empty_witness :
    get_knn_recommendations (.ok [⟨"7", "python", 3⟩]) (.ok []) 7 5 = []
    ∧ get_svd_recommendations (.ok [⟨"7", "python", 3⟩]) [] 7 5 = [] :=
  ⟨c8_cf_exceptions_degrade_to_empty.1 (.ok [⟨"7", "python", 3⟩]) (.ok []) 7 5
      "AttributeError: str object has no attribute est" rfl,
    c8_cf_exceptions_degrade_to_empty.2.2.1 (.ok [⟨"7", "python", 3⟩]) [] 7 5
      "ValueError: invalid literal for int() with base 10: python" rfl⟩

/-- C9: the video-link normalizer maps the standard watch URL to its
11-character id and yields no identifier for an absent URL, the empty
string, and a non-matching URL. -/
theorem c9_extract_youtube_id_cases :
    extract_youtube_id (some "https://www.youtube.com/watch?v=dQw4w9WgXcQ")
        = some "dQw4w9WgXcQ"
    ∧ extract_youtube_id none = none
    ∧ extract_youtube_id (some "") = none
    ∧ extract_youtube_id (some "https://example.com/video") = none :=
  ⟨rfl, rfl, rfl, rfl⟩

/-- C10 (code bug): the two copies of `generate_recommendations` are not
behaviorally equivalent: on a profile with one matching skill and a
one-item catalog the app.py copy returns the matching record while the
modules/recommendation_methods.py copy raises NameError (it calls
`extract_youtube_id` without defining or importing it); a profile with a
non-empty interests list makes the same copy raise NameError on the
undefined name `item` before the loop even starts. -/
theorem c10_duplicate_copy_not_equivalent :
    generate_recommendations (some pC10) (some catC10) = [recC10]
    ∧ generate_recommendations_module (some pC10) (some catC10) =
        .error "NameError: name extract_youtube_id is not defined"
    ∧ generate_recommendations_module (some { interets := [.str "ai"] })
        (some (.list [])) = .error "NameError: name item is not defined" :=
  ⟨rfl, rfl, rfl⟩
